import Mathlib

/-!
Verification development for the game repository (src/main.rs, src/game.rs,
src/components.rs, src/math.rs).  Each section shallowly embeds the Rust
code it is about; theorems at the end settle the claims.
-/

namespace Game

/-! ## Geometry: sdl2 Rect (src/components.rs uses sdl2::rect::Rect)

An SDL rectangle has an integer corner and unsigned extent.  `right` is
`x + w`, `bottom` is `y + h`, and `has_intersection` is the strict
overlap test of the rust-sdl2 crate. -/

structure Rect where
  x : Int
  y : Int
  w : Nat
  h : Nat
deriving DecidableEq, Repr

def Rect.left (r : Rect) : Int := r.x

def Rect.right (r : Rect) : Int := r.x + r.w

def Rect.top (r : Rect) : Int := r.y

def Rect.bottom (r : Rect) : Int := r.y + r.h

/-- Strict AABB overlap test, matching rust-sdl2 `Rect::has_intersection`. -/
def Rect.hasIntersection (a b : Rect) : Bool :=
  decide (a.left < b.right) && decide (b.left < a.right) &&
  decide (a.top < b.bottom) && decide (b.top < a.bottom)

/-! ## Collider state (src/components.rs lines 102-153)

Positions are `f32` in the source; every quantity the collision claims
touch is integer-valued (collider bounds are `i32`, corrections subtract
differences of `i32` values cast to `f32`, exact below 2^24), so we model
positions over the rationals.  The `on_collide` function pointer is
modelled by its presence bit plus an event trace of its invocations. -/

def CH_NONE : Nat := 0

def CH_NAV : Nat := 1

def CH_HITBOX : Nat := 2

structure Pos where
  x : ℚ
  y : ℚ
deriving DecidableEq, Repr

structure Collider where
  channels : Nat
  collidesWith : Nat
  xOffset : Int
  yOffset : Int
  bounds : Rect
  isColliding : Bool
  left : Bool
  right : Bool
  top : Bool
  bottom : Bool
  hasOnCollide : Bool
deriving DecidableEq, Repr

/-- `Collider::new(rect, channels, collides_with, on_collide)`: bounds start
at the origin with the supplied extent; flags start false. -/
def Collider.make (xOff yOff : Int) (w h : Nat) (channels collidesWith : Nat)
    (hasCb : Bool) : Collider :=
  { channels := channels
    collidesWith := collidesWith
    xOffset := xOff
    yOffset := yOff
    bounds := ⟨0, 0, w, h⟩
    isColliding := false
    left := false
    right := false
    top := false
    bottom := false
    hasOnCollide := hasCb }

structure ColliderGroup where
  nav : Option Collider
  hitbox : Option Collider
deriving DecidableEq, Repr

/-! ## detect_collisions::test (src/game.rs lines 562-608) -/

structure TestOut where
  c1 : Collider
  pos1 : Pos
  callbacks : List (Nat × Nat)
deriving DecidableEq, Repr

/-- Shallow embedding of the inner `test` function of `detect_collisions`.
`e1Static` is `world.has_component::<Static>(*e1)`; `callbacks` records the
`(e1, e2)` arguments of each `on_collide` invocation. -/
def testCollide (e1 : Nat) (e1Static : Bool) (c1 : Collider) (pos1 : Pos)
    (e2 : Nat) (c2 : Collider) (shouldMove : Bool) : TestOut :=
  if e1 ≠ e2 ∧ c1.collidesWith &&& c2.channels ≠ 0 ∧
      Rect.hasIntersection c1.bounds c2.bounds = true then
    let c1 := { c1 with isColliding := true }
    let callbacks := if c1.hasOnCollide then [(e1, e2)] else []
    let dBottom : Int := c2.bounds.bottom - c1.bounds.top
    let dTop : Int := c1.bounds.bottom - c2.bounds.top
    let dLeft : Int := c1.bounds.right - c2.bounds.left
    let dRight : Int := c2.bounds.right - c1.bounds.left
    if dTop < dBottom ∧ dTop < dLeft ∧ dTop < dRight then
      let c1 := { c1 with bottom := true }
      let pos1 :=
        if shouldMove && !e1Static then
          { pos1 with y := pos1.y - ((c1.bounds.bottom : ℚ) - (c2.bounds.top : ℚ) - 1) }
        else pos1
      ⟨c1, pos1, callbacks⟩
    else if dBottom < dTop ∧ dBottom < dLeft ∧ dBottom < dRight then
      let c1 := { c1 with top := true }
      let pos1 :=
        if shouldMove && !e1Static then
          { pos1 with y := pos1.y + ((c2.bounds.bottom : ℚ) - (c1.bounds.top : ℚ) - 1) }
        else pos1
      ⟨c1, pos1, callbacks⟩
    else if dLeft < dRight ∧ dLeft < dTop ∧ dLeft < dBottom then
      let c1 := { c1 with right := true }
      let pos1 :=
        if shouldMove && !e1Static then
          { pos1 with x := pos1.x - ((c1.bounds.right : ℚ) - (c2.bounds.left : ℚ) - 1) }
        else pos1
      ⟨c1, pos1, callbacks⟩
    else if dRight < dLeft ∧ dRight < dTop ∧ dRight < dBottom then
      let c1 := { c1 with left := true }
      let pos1 :=
        if shouldMove && !e1Static then
          { pos1 with x := pos1.x + ((c2.bounds.right : ℚ) - (c1.bounds.left : ℚ) - 1) }
        else pos1
      ⟨c1, pos1, callbacks⟩
    else
      ⟨c1, pos1, callbacks⟩
  else
    ⟨c1, pos1, []⟩

/-! ## detect_collisions::test_all and the per-entity outer body
(src/game.rs lines 610-636) -/

/-- One iteration of the inner query of `test_all`: the entity pair
`(e2, cg)` is tested against `c1`, the nav member with `should_move = true`,
the hitbox member with `should_move = false`. -/
def testAllStep (e1 : Nat) (e1Static : Bool) (acc : TestOut)
    (ent : Nat × ColliderGroup) : TestOut :=
  let acc1 :=
    match ent.2.nav with
    | some c2 =>
        let o := testCollide e1 e1Static acc.c1 acc.pos1 ent.1 c2 true
        ⟨o.c1, o.pos1, acc.callbacks ++ o.callbacks⟩
    | none => acc
  match ent.2.hitbox with
  | some c2 =>
      let o := testCollide e1 e1Static acc1.c1 acc1.pos1 ent.1 c2 false
      ⟨o.c1, o.pos1, acc1.callbacks ++ o.callbacks⟩
  | none => acc1

/-- `test_all`: reset the flags of `c1`, then test it against every
collider group in the world (the self pair is skipped inside `test`). -/
def testAll (e1 : Nat) (e1Static : Bool) (c1 : Collider) (pos1 : Pos)
    (world : List (Nat × ColliderGroup)) : TestOut :=
  let c0 := { c1 with isColliding := false, left := false, right := false,
                      top := false, bottom := false }
  world.foldl (testAllStep e1 e1Static) ⟨c0, pos1, []⟩

structure DetectOut where
  cg : ColliderGroup
  pos : Pos
  callbacks : List (Nat × Nat)
deriving DecidableEq, Repr

/-- The body of the outer query of `detect_collisions` for one entity
`e1`: run `test_all` on its nav collider, then on its hitbox collider,
threading the position. -/
def detectEntity (e1 : Nat) (e1Static : Bool) (cg : ColliderGroup) (p : Pos)
    (world : List (Nat × ColliderGroup)) : DetectOut :=
  let s1 : Option Collider × Pos × List (Nat × Nat) :=
    match cg.nav with
    | some c1 =>
        let o := testAll e1 e1Static c1 p world
        (some o.c1, o.pos1, o.callbacks)
    | none => (none, p, [])
  let s2 : Option Collider × Pos × List (Nat × Nat) :=
    match cg.hitbox with
    | some c1 =>
        let o := testAll e1 e1Static c1 s1.2.1 world
        (some o.c1, o.pos1, o.callbacks)
    | none => (none, s1.2.1, [])
  ⟨⟨s1.1, s2.1⟩, s2.2.1, s1.2.2 ++ s2.2.2⟩

/-! ## Penetration depths (src/game.rs lines 581-584) -/

/-- `d_top = c1.bounds.bottom() - c2.bounds.top()`. -/
def penTop (c1 c2 : Collider) : Int := c1.bounds.bottom - c2.bounds.top

/-- `d_bottom = c2.bounds.bottom() - c1.bounds.top()`. -/
def penBottom (c1 c2 : Collider) : Int := c2.bounds.bottom - c1.bounds.top

/-- `d_left = c1.bounds.right() - c2.bounds.left()`. -/
def penLeft (c1 c2 : Collider) : Int := c1.bounds.right - c2.bounds.left

/-- `d_right = c2.bounds.right() - c1.bounds.left()`. -/
def penRight (c1 c2 : Collider) : Int := c2.bounds.right - c1.bounds.left

/-! ## Concrete collision instances used by counterexamples and witnesses -/

/-- The moving 1x1 box of P3: a navigation collider whose bounds sit at
(30, 15), overlapping the static 32x32 box from the right by 2. -/
def movingBox : Collider :=
  { Collider.make 0 0 1 1 CH_NAV CH_NAV false with bounds := ⟨30, 15, 1, 1⟩ }

/-- The static box of P3: a wall-style navigation collider with bounds
(0, 0, 32, 32). -/
def staticBox : Collider :=
  { Collider.make (-16) (-14) 32 30 CH_NAV 3 false with bounds := ⟨0, 0, 32, 32⟩ }

/-- A collider exactly coinciding with `staticBox`: every penetration depth
ties at 32. -/
def coincidentBox : Collider :=
  { Collider.make 0 0 32 32 CH_NAV CH_NAV false with bounds := ⟨0, 0, 32, 32⟩ }

/-- A hitbox-slot collider that reacts to the navigation channel,
overlapping `staticBox` from the right. -/
def sensorBox : Collider :=
  { Collider.make 0 0 1 1 CH_HITBOX CH_NAV false with bounds := ⟨30, 10, 1, 1⟩ }

/-! ## Collision helper lemmas -/

/-- A collider pair tested with `should_move = false` (the other collider
sits in the hitbox slot) never changes the position, whatever else
happens. -/
theorem testCollide_no_move_pos (e1 e2 : Nat) (st : Bool) (c1 c2 : Collider)
    (p : Pos) : (testCollide e1 st c1 p e2 c2 false).pos1 = p := by
  simp only [testCollide, Bool.false_and]
  split_ifs <;> simp_all

theorem testAllStep_no_nav_pos (e1 : Nat) (st : Bool) (acc : TestOut)
    (pr : Nat × ColliderGroup) (hn : pr.2.nav = none) :
    (testAllStep e1 st acc pr).pos1 = acc.pos1 := by
  unfold testAllStep
  rw [hn]
  cases hh : pr.2.hitbox with
  | none => rfl
  | some c2 => simp only [testCollide_no_move_pos]

theorem testAll_foldl_no_nav_pos (e1 : Nat) (st : Bool)
    (world : List (Nat × ColliderGroup)) :
    ∀ acc : TestOut, (∀ pr ∈ world, pr.2.nav = none) →
      (world.foldl (testAllStep e1 st) acc).pos1 = acc.pos1 := by
  induction world with
  | nil => intro acc _; rfl
  | cons pr rest ih =>
      intro acc hw
      rw [List.foldl_cons, ih _ (fun q hq => hw q (List.mem_cons_of_mem _ hq)),
        testAllStep_no_nav_pos e1 st acc pr (hw pr (List.mem_cons_self _ _))]

theorem testAll_no_nav_pos (e1 : Nat) (st : Bool) (c1 : Collider) (p : Pos)
    (world : List (Nat × ColliderGroup))
    (hw : ∀ pr ∈ world, pr.2.nav = none) :
    (testAll e1 st c1 p world).pos1 = p := by
  unfold testAll
  exact testAll_foldl_no_nav_pos e1 st world _ hw

/-! ## Claims C1, C2, C3 -/

/-- Claim C1, counterexample.  The concrete instance of the claim itself
(static box (0,0,32,32), moving 1x1 box with left edge at x = 30, depth
d = 2 along the x axis) ends with its left edge at 31, not at
30 + (d + 1) = 33: the code of `detect_collisions::test` adds the depth
minus one, not plus one.  The side flag is set as claimed. -/
theorem C1_counterexample :
    (testCollide 1 false movingBox ⟨30, 15⟩ 2 staticBox true).c1.left = true ∧
    (testCollide 1 false movingBox ⟨30, 15⟩ 2 staticBox true).pos1.x = 31 ∧
    penRight movingBox staticBox = 2 ∧ (31 : ℚ) ≠ 30 + (2 + 1) := by
  refine ⟨by decide, ?_, by decide, by norm_num⟩
  norm_num [testCollide, movingBox, staticBox, Collider.make, Rect.hasIntersection,
    Rect.left, Rect.right, Rect.top, Rect.bottom, CH_NAV]

/-- Claim C1, amended.  For a collision that is detected (distinct
entities, matching channel masks, strict bounds intersection), tested with
`should_move = true` (the other collider is in the nav slot) on a
non-static entity, if the minimum penetration depth is strict along one
axis then the position shifts by exactly that depth MINUS one along that
axis, away from the other collider, the other coordinate is untouched, and
the corresponding side flag on `c1` is set. -/
theorem C1_amended_correction (e1 e2 : Nat) (c1 c2 : Collider) (p : Pos)
    (hne : e1 ≠ e2)
    (hmask : c1.collidesWith &&& c2.channels ≠ 0)
    (hint : Rect.hasIntersection c1.bounds c2.bounds = true) :
    (penTop c1 c2 < penBottom c1 c2 ∧ penTop c1 c2 < penLeft c1 c2 ∧
        penTop c1 c2 < penRight c1 c2 →
      (testCollide e1 false c1 p e2 c2 true).c1.bottom = true ∧
      (testCollide e1 false c1 p e2 c2 true).pos1.y = p.y - ((penTop c1 c2 : ℚ) - 1) ∧
      (testCollide e1 false c1 p e2 c2 true).pos1.x = p.x) ∧
    (penBottom c1 c2 < penTop c1 c2 ∧ penBottom c1 c2 < penLeft c1 c2 ∧
        penBottom c1 c2 < penRight c1 c2 →
      (testCollide e1 false c1 p e2 c2 true).c1.top = true ∧
      (testCollide e1 false c1 p e2 c2 true).pos1.y = p.y + ((penBottom c1 c2 : ℚ) - 1) ∧
      (testCollide e1 false c1 p e2 c2 true).pos1.x = p.x) ∧
    (penLeft c1 c2 < penRight c1 c2 ∧ penLeft c1 c2 < penTop c1 c2 ∧
        penLeft c1 c2 < penBottom c1 c2 →
      (testCollide e1 false c1 p e2 c2 true).c1.right = true ∧
      (testCollide e1 false c1 p e2 c2 true).pos1.x = p.x - ((penLeft c1 c2 : ℚ) - 1) ∧
      (testCollide e1 false c1 p e2 c2 true).pos1.y = p.y) ∧
    (penRight c1 c2 < penLeft c1 c2 ∧ penRight c1 c2 < penTop c1 c2 ∧
        penRight c1 c2 < penBottom c1 c2 →
      (testCollide e1 false c1 p e2 c2 true).c1.left = true ∧
      (testCollide e1 false c1 p e2 c2 true).pos1.x = p.x + ((penRight c1 c2 : ℚ) - 1) ∧
      (testCollide e1 false c1 p e2 c2 true).pos1.y = p.y) := by
  simp only [testCollide, penTop, penBottom, penLeft, penRight] at *
  rw [if_pos ⟨hne, hmask, hint⟩]
  refine ⟨?_, ?_, ?_, ?_⟩ <;> intro h <;>
    split_ifs <;> simp_all <;> push_cast <;> ring_nf <;> omega

/-- Claim C1, witness: the amended theorem applied to the concrete P3
instance, landing in the `d_right` branch. -/
theorem C1_amended_correction_witness :
    (testCollide 1 false movingBox ⟨30, 15⟩ 2 staticBox true).c1.left = true ∧
    (testCollide 1 false movingBox ⟨30, 15⟩ 2 staticBox true).pos1.x =
      (30 : ℚ) + ((penRight movingBox staticBox : ℚ) - 1) ∧
    (testCollide 1 false movingBox ⟨30, 15⟩ 2 staticBox true).pos1.y = 15 :=
  (C1_amended_correction 1 2 movingBox staticBox ⟨30, 15⟩ (by decide) (by decide)
    (by decide)).2.2.2 (by decide)

/-- Claim C2, counterexample.  Two coincident 32x32 colliders on distinct
entities: all four penetration depths tie at 32, every branch guard of the
comparison chain is a strict inequality, so NO side flag is set and NO
positional correction is applied — there is no top-before-bottom-before-
left-before-right priority among tied depths.  Detection itself still
happens. -/
theorem C2_counterexample :
    (testCollide 1 false coincidentBox ⟨16, 16⟩ 2 coincidentBox true).c1.isColliding = true ∧
    (testCollide 1 false coincidentBox ⟨16, 16⟩ 2 coincidentBox true).c1.top = false ∧
    (testCollide 1 false coincidentBox ⟨16, 16⟩ 2 coincidentBox true).c1.bottom = false ∧
    (testCollide 1 false coincidentBox ⟨16, 16⟩ 2 coincidentBox true).c1.left = false ∧
    (testCollide 1 false coincidentBox ⟨16, 16⟩ 2 coincidentBox true).c1.right = false ∧
    (testCollide 1 false coincidentBox ⟨16, 16⟩ 2 coincidentBox true).pos1 = ⟨16, 16⟩ := by
  refine ⟨by decide, by decide, by decide, by decide, by decide, ?_⟩
  norm_num [testCollide, coincidentBox, Collider.make, Rect.hasIntersection,
    Rect.left, Rect.right, Rect.top, Rect.bottom, CH_NAV]

/-- Claim C2, amended.  When two (or more) of the four penetration depths
are equal and minimal, every strict-inequality guard in the comparison
chain of `detect_collisions::test` fails: the collider is only marked
colliding (and its callback fires on presence); no side flag is set and
the position is unchanged. -/
theorem C2_tie_no_resolution (e1 e2 : Nat) (c1 c2 : Collider) (p : Pos)
    (hne : e1 ≠ e2)
    (hmask : c1.collidesWith &&& c2.channels ≠ 0)
    (hint : Rect.hasIntersection c1.bounds c2.bounds = true)
    (htie :
      (penTop c1 c2 = penBottom c1 c2 ∧ penTop c1 c2 ≤ penLeft c1 c2 ∧
        penTop c1 c2 ≤ penRight c1 c2) ∨
      (penTop c1 c2 = penLeft c1 c2 ∧ penTop c1 c2 ≤ penBottom c1 c2 ∧
        penTop c1 c2 ≤ penRight c1 c2) ∨
      (penTop c1 c2 = penRight c1 c2 ∧ penTop c1 c2 ≤ penBottom c1 c2 ∧
        penTop c1 c2 ≤ penLeft c1 c2) ∨
      (penBottom c1 c2 = penLeft c1 c2 ∧ penBottom c1 c2 ≤ penTop c1 c2 ∧
        penBottom c1 c2 ≤ penRight c1 c2) ∨
      (penBottom c1 c2 = penRight c1 c2 ∧ penBottom c1 c2 ≤ penTop c1 c2 ∧
        penBottom c1 c2 ≤ penLeft c1 c2) ∨
      (penLeft c1 c2 = penRight c1 c2 ∧ penLeft c1 c2 ≤ penTop c1 c2 ∧
        penLeft c1 c2 ≤ penBottom c1 c2)) :
    (testCollide e1 false c1 p e2 c2 true).c1 = { c1 with isColliding := true } ∧
    (testCollide e1 false c1 p e2 c2 true).pos1 = p ∧
    (testCollide e1 false c1 p e2 c2 true).callbacks =
      (if c1.hasOnCollide then [(e1, e2)] else []) := by
  simp only [testCollide, penTop, penBottom, penLeft, penRight] at *
  rw [if_pos ⟨hne, hmask, hint⟩]
  split_ifs <;> first
    | exact ⟨rfl, rfl, rfl⟩
    | omega

/-- Claim C2, witness: the tie theorem applied to the coincident 32x32
pair, where all four depths equal 32. -/
theorem C2_tie_no_resolution_witness :
    (testCollide 1 false coincidentBox ⟨16, 16⟩ 2 coincidentBox true).c1 =
      { coincidentBox with isColliding := true } ∧
    (testCollide 1 false coincidentBox ⟨16, 16⟩ 2 coincidentBox true).pos1 = ⟨16, 16⟩ ∧
    (testCollide 1 false coincidentBox ⟨16, 16⟩ 2 coincidentBox true).callbacks =
      (if coincidentBox.hasOnCollide then [(1, 2)] else []) :=
  C2_tie_no_resolution 1 2 coincidentBox coincidentBox ⟨16, 16⟩ (by decide)
    (by decide) (by decide) (by decide)

/-- Claim C3, counterexample.  An entity whose ONLY collider is a hitbox
(`sensorBox`, in the hitbox slot of its group) overlaps a navigation
collider of another entity: `test_all` passes `should_move = true` because
the OTHER collider is in the nav slot, so the entity position IS moved
(from x = 30 to x = 31), contradicting the claim that collisions of a
hitbox collider never modify the position. -/
theorem C3_counterexample :
    (detectEntity 1 false ⟨none, some sensorBox⟩ ⟨30, 10⟩
        [(2, ⟨some staticBox, none⟩)]).pos.x = 31 ∧ (31 : ℚ) ≠ 30 := by
  constructor
  · norm_num [detectEntity, testAll, testAllStep, testCollide, sensorBox, staticBox,
      Collider.make, Rect.hasIntersection, Rect.left, Rect.right, Rect.top,
      Rect.bottom, CH_NAV, CH_HITBOX]
  · norm_num

/-- Claim C3, amended.  Positional correction depends on the category of
the OTHER collider, not on the category of the resolving collider: the
code passes `should_move = true` exactly for nav-slot partners.  Hence if
every other collider group in the world has an empty nav slot, the entity
position is unchanged by the whole detect+resolve pass, whatever its own
colliders are. -/
theorem C3_correction_requires_nav_other (e1 : Nat) (st : Bool)
    (cg : ColliderGroup) (p : Pos) (world : List (Nat × ColliderGroup))
    (hw : ∀ pr ∈ world, pr.2.nav = none) :
    (detectEntity e1 st cg p world).pos = p := by
  unfold detectEntity
  cases cg.nav <;> cases cg.hitbox <;>
    simp only [testAll_no_nav_pos e1 st _ _ world hw]

/-- Claim C3, witness: a world holding a single hitbox-only group leaves
the position of the tested entity unchanged. -/
theorem C3_correction_requires_nav_other_witness :
    (detectEntity 5 false ⟨some movingBox, some sensorBox⟩ ⟨1, 2⟩
        [(6, ⟨none, some coincidentBox⟩)]).pos = ⟨1, 2⟩ :=
  C3_correction_requires_nav_other 5 false ⟨some movingBox, some sensorBox⟩ ⟨1, 2⟩
    [(6, ⟨none, some coincidentBox⟩)] (by decide)

/-! ## Inventory and items (src/components.rs lines 207-523)

The source dispatches `dyn Item` over exactly four concrete item types
(TestItem, PerfectlyGenericItem, Torch, Chemlight); we embed them as a
closed sum.  `on_select` and `on_deselect` are empty for all four, so the
lifecycle hooks are recorded as an event trace carrying the slot index.
World side effects of `on_tick` and `on_use` (player light updates,
chemlight entity spawning) do not touch the inventory and are outside the
inventory claims. -/

inductive InvCmd
  | noCmd
  | removeCmd
deriving DecidableEq, Repr

inductive Item
  | testItem
  | perfectlyGenericItem
  | torch (isLit : Bool) (ticksMax ticksLeft : Nat)
  | chemlight (usesLeft : Nat)
deriving DecidableEq, Repr

/-- `Item::on_use` of each concrete item.  `Torch::on_use` lights the
torch; `Chemlight::on_use` decrements `uses_left` (a u16, never 0 while
the item is held) and asks for removal when it reaches 0. -/
def Item.onUse : Item → Item × InvCmd
  | .torch _ tmax tleft => (.torch true tmax tleft, .noCmd)
  | .chemlight u =>
      let u2 := u - 1
      (.chemlight u2, if u2 = 0 then .removeCmd else .noCmd)
  | i => (i, .noCmd)

/-- `Item::on_tick`.  Only `Torch` has behaviour: at `ticks_left == 0` it
asks for removal, otherwise a lit torch burns one tick down.  The
`is_active` argument is unused by all four items. -/
def Item.onTick (i : Item) (_isActive : Bool) : Item × InvCmd :=
  match i with
  | .torch isLit tmax tleft =>
      if tleft = 0 then (.torch isLit tmax tleft, .removeCmd)
      else (.torch isLit tmax (if isLit then tleft - 1 else tleft), .noCmd)
  | j => (j, .noCmd)

inductive InvEvent
  | select (slot : Nat)
  | deselect (slot : Nat)
deriving DecidableEq, Repr

/-- `Inventory`: 8 slots, a held-items counter (u16) and the active slot
index (u16, always kept below 8 by the code, hence `Fin 8` here). -/
structure Inventory where
  items : Fin 8 → Option Item
  numItems : Nat
  activeItemIdx : Fin 8

/-- `Inventory::new()`. -/
def Inventory.new : Inventory :=
  { items := fun _ => none, numItems := 0, activeItemIdx := 0 }

/-- Slot write, non-dependent function update on `Fin 8`. -/
def updItems (f : Fin 8 → Option Item) (j : Fin 8) (v : Option Item) :
    Fin 8 → Option Item :=
  fun i => if i = j then v else f i

/-- The first empty slot, scanning slots 0..7 in order, as
`self.items.iter_mut()` does. -/
def firstEmptyIdx (f : Fin 8 → Option Item) : Option (Fin 8) :=
  (List.finRange 8).find? (fun i => (f i).isNone)

/-- `Inventory::insert`: guarded by `num_items < 8`, writes the item into
the first empty slot, fires `on_select` on it iff `num_items == 0`,
increments the counter and returns true; otherwise returns false with no
mutation.  (`num_items` is never decremented anywhere in the source.) -/
def Inventory.insert (inv : Inventory) (item : Item) :
    Inventory × Bool × List InvEvent :=
  if inv.numItems < 8 then
    match firstEmptyIdx inv.items with
    | some i =>
        ({ inv with items := updItems inv.items i (some item),
                    numItems := inv.numItems + 1 },
         true,
         if inv.numItems = 0 then [InvEvent.select i.val] else [])
    | none => (inv, false, [])
  else (inv, false, [])

/-- The rightward probe step `idx = (idx + 1) % 8` (u16 arithmetic,
`idx < 8` throughout). -/
def stepUp (i : Fin 8) : Fin 8 := ⟨(i.val + 1) % 8, Nat.mod_lt _ (by omega)⟩

/-- The leftward probe step `idx = (idx.wrapping_sub(1)) % 8`: for
`idx < 8` the u16 wrapping subtraction then mod 8 is `(idx + 7) % 8`
(0 wraps through 65535 to 7). -/
def stepDown (i : Fin 8) : Fin 8 :=
  ⟨(i.val + 65535) % 65536 % 8, Nat.mod_lt _ (by omega)⟩

/-- The seek loop of `set_active_offset`:
`while i < 8 && self.items[idx].is_none() { i += 1; idx = step(idx) }`,
with `fuel` playing the role of `8 - i`. -/
def seekOccupied (f : Fin 8 → Option Item) (step : Fin 8 → Fin 8) :
    Nat → Fin 8 → Fin 8
  | 0, idx => idx
  | fuel + 1, idx =>
      if (f idx).isNone then seekOccupied f step fuel (step idx) else idx

/-- The u16 reinterpretation of an i16 value (two's complement), used for
`(self.active_item_idx as i16 + offset) as u16`. -/
def u16OfInt (n : Int) : Nat := (n % 65536).toNat

/-- `Inventory::set_active_offset`: no-op at offset 0; otherwise fires
`on_deselect` on the occupied active slot, jumps by the offset (mod 8,
through the i16-to-u16 cast), walks at most 8 probes in the offset
direction skipping empty slots, then fires `on_select` on the occupied
landing slot. -/
def Inventory.setActiveOffset (inv : Inventory) (offset : Int) :
    Inventory × List InvEvent :=
  if offset = 0 then (inv, [])
  else
    let ev0 : List InvEvent :=
      match inv.items inv.activeItemIdx with
      | some _ => [InvEvent.deselect inv.activeItemIdx.val]
      | none => []
    let start : Fin 8 :=
      if 0 < offset then
        ⟨u16OfInt (inv.activeItemIdx.val + offset) % 8, Nat.mod_lt _ (by omega)⟩
      else
        ⟨u16OfInt (inv.activeItemIdx.val + 8 + offset) % 8, Nat.mod_lt _ (by omega)⟩
    let idx := seekOccupied inv.items (if 0 < offset then stepUp else stepDown) 8 start
    let ev1 : List InvEvent :=
      match inv.items idx with
      | some _ => [InvEvent.select idx.val]
      | none => []
    ({ inv with activeItemIdx := idx }, ev0 ++ ev1)

/-- `Inventory::tick`: for each slot 0..7 in order, run the occupied
item's `on_tick` (passing whether the slot is active) and either store the
updated item back or clear the slot on a remove command. -/
def Inventory.tick (inv : Inventory) : Inventory :=
  let f := (List.finRange 8).foldl (fun f i =>
    match f i with
    | some item =>
        match Item.onTick item (i = inv.activeItemIdx) with
        | (_, InvCmd.removeCmd) => updItems f i none
        | (item2, InvCmd.noCmd) => updItems f i (some item2)
    | none => f) inv.items
  { inv with items := f }

/-- `Inventory::do_use`: run `on_use` of the occupied active slot; a
remove command clears the slot. -/
def Inventory.doUse (inv : Inventory) : Inventory :=
  match inv.items inv.activeItemIdx with
  | some item =>
      match Item.onUse item with
      | (_, InvCmd.removeCmd) =>
          { inv with items := updItems inv.items inv.activeItemIdx none }
      | (item2, InvCmd.noCmd) =>
          { inv with items := updItems inv.items inv.activeItemIdx (some item2) }
  | none => inv

/-- The probe loop shared by `next_idx_right` and `next_idx_left`:
`while i < 7 { if items[idx].is_some() && idx != active { return idx };
idx = step(idx); i += 1 }` — note it runs only 7 probes and the first one
is spent on the active slot itself. -/
def nextIdxLoop (f : Fin 8 → Option Item) (active : Fin 8)
    (step : Fin 8 → Fin 8) : Nat → Fin 8 → Option (Fin 8)
  | 0, _ => none
  | fuel + 1, idx =>
      if (f idx).isSome ∧ idx ≠ active then some idx
      else nextIdxLoop f active step fuel (step idx)

/-- `Inventory::next_idx_right`. -/
def Inventory.nextIdxRight (inv : Inventory) : Option (Fin 8) :=
  nextIdxLoop inv.items inv.activeItemIdx stepUp 7 inv.activeItemIdx

/-- `Inventory::next_idx_left`. -/
def Inventory.nextIdxLeft (inv : Inventory) : Option (Fin 8) :=
  nextIdxLoop inv.items inv.activeItemIdx stepDown 7 inv.activeItemIdx

/-- `Inventory::get_right`. -/
def Inventory.getRight (inv : Inventory) : Option Item :=
  match inv.nextIdxRight with
  | some idx => inv.items idx
  | none => none

/-- `Inventory::get_left`. -/
def Inventory.getLeft (inv : Inventory) : Option Item :=
  match inv.nextIdxLeft with
  | some idx => inv.items idx
  | none => none

/-- Number of occupied slots — what the spec calls the items currently
held. -/
def heldCount (inv : Inventory) : Nat :=
  ((List.finRange 8).filter (fun i => (inv.items i).isSome)).length

instance : DecidableEq Inventory := fun a b =>
  decidable_of_iff (a.items = b.items ∧ a.numItems = b.numItems ∧
    a.activeItemIdx = b.activeItemIdx)
    (by cases a; cases b; simp [Inventory.mk.injEq])

/-! ## Concrete inventory states for the claims -/

/-- A chemlight on its last use: `on_use` returns the remove command. -/
def chem : Item := Item.chemlight 1

/-- The inventory after `k` successful inserts of `chem` into a fresh
inventory: the first `k` slots hold it, the counter is `k`. -/
def invK (k : Nat) : Inventory :=
  { items := fun i => if i.val < k then some chem else none,
    numItems := k, activeItemIdx := 0 }

/-- The state after `do_use` on a full `chem` inventory: slot 0 cleared,
`num_items` still 8. -/
def invAfterUse : Inventory :=
  { items := fun i => if i.val = 0 then none else some chem,
    numItems := 8, activeItemIdx := 0 }

/-- Insert 8 chemlights (each with one use left) into a fresh inventory,
then use the active one, which removes it from its slot. -/
def invC4 : Inventory :=
  ((List.replicate 8 chem).foldl (fun inv it => (inv.insert it).1)
    Inventory.new).doUse

/-- Items only in slots 0 and 5, active slot 0 — the P4 scenario. -/
def invTwo : Inventory :=
  { items := fun i => if i.val = 0 then some Item.testItem
      else if i.val = 5 then some (Item.chemlight 5) else none,
    numItems := 2, activeItemIdx := 0 }

/-- Items only in slots 0 and 7, active slot 0: the only other occupied
slot is 7 steps away walking rightward. -/
def invGapRight : Inventory :=
  { items := fun i => if i.val = 0 then some Item.testItem
      else if i.val = 7 then some (Item.chemlight 5) else none,
    numItems := 2, activeItemIdx := 0 }

/-- Items only in slots 0 and 1, active slot 0: the only other occupied
slot is 7 steps away walking leftward. -/
def invGapLeft : Inventory :=
  { items := fun i => if i.val = 0 then some Item.testItem
      else if i.val = 1 then some (Item.chemlight 5) else none,
    numItems := 2, activeItemIdx := 0 }

/-- All 8 slots occupied. -/
def fullInv : Inventory :=
  { items := fun _ => some Item.testItem, numItems := 8, activeItemIdx := 3 }

/-! ## Claims C4, C6, C7, C8 -/

/-- Claim C4, code bug.  Fill a fresh inventory with 8 chemlights, use the
active one (its `on_use` returns the remove command clearing slot 0): only
7 items are then held, yet the next `insert` still returns false, because
`num_items` is never decremented when `tick` or `do_use` clears a slot.
The claim (insert succeeds iff fewer than 8 items are currently held) is
the evident intent of the `num_items < 8` guard; the code fails it. -/
theorem C4_insert_after_removal_fails :
    heldCount invC4 = 7 ∧ invC4.numItems = 8 ∧
    (invC4.insert Item.testItem).2.1 = false := by
  have h0 : (Inventory.new.insert chem).1 = invK 1 := by decide
  have h1 : ((invK 1).insert chem).1 = invK 2 := by decide
  have h2 : ((invK 2).insert chem).1 = invK 3 := by decide
  have h3 : ((invK 3).insert chem).1 = invK 4 := by decide
  have h4 : ((invK 4).insert chem).1 = invK 5 := by decide
  have h5 : ((invK 5).insert chem).1 = invK 6 := by decide
  have h6 : ((invK 6).insert chem).1 = invK 7 := by decide
  have h7 : ((invK 7).insert chem).1 = invK 8 := by decide
  have huse : (invK 8).doUse = invAfterUse := by decide
  have hc : invC4 = invAfterUse := by
    unfold invC4
    simp only [List.replicate, List.foldl_cons, List.foldl_nil]
    rw [h0, h1, h2, h3, h4, h5, h6, h7, huse]
  rw [hc]
  refine ⟨by decide, by decide, by decide⟩

/-- Claim C6, confirmed.  With items only in slots 0 and 5 and active slot
0, `set_active_offset(1)` lands on slot 5 (deselecting the slot-0 item,
selecting the slot-5 item), and a second `set_active_offset(1)` wraps back
to slot 0. -/
theorem C6_wraparound :
    (invTwo.setActiveOffset 1).1.activeItemIdx = (5 : Fin 8) ∧
    (invTwo.setActiveOffset 1).2 = [InvEvent.deselect 0, InvEvent.select 5] ∧
    ((invTwo.setActiveOffset 1).1.setActiveOffset 1).1.activeItemIdx = (0 : Fin 8) ∧
    ((invTwo.setActiveOffset 1).1.setActiveOffset 1).2 =
      [InvEvent.deselect 5, InvEvent.select 0] := by
  decide

/-- Claim C7, code bug.  `next_idx_right` and `next_idx_left` probe only 7
indices starting AT the active slot, so the first probe is wasted on the
active slot itself and a slot 7 positions away in the walk direction is
never reached: with items only in slots 0 and 7 (active 0), `get_right`
returns none although slot 7 is occupied; symmetrically `get_left` misses
slot 1. -/
theorem C7_lookahead_misses_distance_seven :
    invGapRight.items 7 = some (Item.chemlight 5) ∧ invGapRight.getRight = none ∧
    invGapLeft.items 1 = some (Item.chemlight 5) ∧ invGapLeft.getLeft = none := by
  decide

/-- Claim C8, confirmed.  Inserting into an inventory whose 8 slots are
all occupied returns false and changes nothing: whatever `num_items`
holds, either the `num_items < 8` guard fails or the first-empty-slot scan
finds nothing, and both paths return the inventory untouched, with no
lifecycle event. -/
theorem C8_insert_full_noop (inv : Inventory) (item : Item)
    (h : ∀ i, (inv.items i).isSome) :
    inv.insert item = (inv, false, []) := by
  unfold Inventory.insert
  have hfe : firstEmptyIdx inv.items = none := by
    unfold firstEmptyIdx
    rw [List.find?_eq_none]
    intro i _
    intro hnone
    have h2 := h i
    rw [Option.isNone_iff_eq_none] at hnone
    rw [hnone] at h2
    exact absurd h2 (by simp)
  rw [hfe]
  split_ifs <;> rfl

/-- Claim C8, witness: a concrete full inventory rejects a ninth item. -/
theorem C8_insert_full_noop_witness :
    (∀ i, (fullInv.items i).isSome) ∧
    fullInv.insert (Item.chemlight 5) = (fullInv, false, []) :=
  ⟨by decide, C8_insert_full_noop fullInv (Item.chemlight 5) (by decide)⟩

/-! ## Despawn queue and the update loop (src/game.rs lines 87-107)

`update` runs the systems in sequence, then drains the despawn queue
(`for e in despawn_queue.iter() { world.despawn(*e) }`) and clears it.
`world.despawn` appears nowhere else in the repository; during the
systems phase the store is only changed by `world.spawn` (fresh entities:
spawn_bullet in update_player, particle spawning in update_spawners) and
by `despawn_queue.push` (enemy on_collide, bullet on_collide,
update_projectiles).  The systems phase is therefore modelled as an
arbitrary sequence of spawn and enqueue effects on the store/queue pair,
and the flush exactly as the drain loop. -/

structure TickWorld where
  alive : List Nat
  queue : List Nat
deriving DecidableEq, Repr

inductive TickOp
  | spawn (e : Nat)
  | enqueueDespawn (e : Nat)
deriving DecidableEq, Repr

/-- One store effect of the systems phase: `world.spawn` appends a new
entity; `despawn_queue.push` appends to the queue.  Neither removes
anything. -/
def applyTickOp (w : TickWorld) : TickOp → TickWorld
  | .spawn e => { w with alive := w.alive ++ [e] }
  | .enqueueDespawn e => { w with queue := w.queue ++ [e] }

/-- The systems phase of one `update` call. -/
def runSystems (w : TickWorld) (ops : List TickOp) : TickWorld :=
  ops.foldl applyTickOp w

/-- The tail of `update`: despawn every queued entity, then clear the
queue. -/
def flushDespawnQueue (w : TickWorld) : TickWorld :=
  { alive := w.queue.foldl (fun al e => al.filter (fun a => a != e)) w.alive,
    queue := [] }

/-- One full `update` call. -/
def updateTick (w : TickWorld) (ops : List TickOp) : TickWorld :=
  flushDespawnQueue (runSystems w ops)

theorem alive_mono_runSystems (e : Nat) (ops : List TickOp) :
    ∀ w : TickWorld, e ∈ w.alive → e ∈ (runSystems w ops).alive := by
  induction ops with
  | nil => intro w h; exact h
  | cons op rest ih =>
      intro w h
      refine ih _ ?_
      cases op with
      | spawn f => exact List.mem_append_left _ h
      | enqueueDespawn f => exact h

theorem queue_mono_runSystems (e : Nat) (ops : List TickOp) :
    ∀ w : TickWorld, e ∈ w.queue → e ∈ (runSystems w ops).queue := by
  induction ops with
  | nil => intro w h; exact h
  | cons op rest ih =>
      intro w h
      refine ih _ ?_
      cases op with
      | spawn f => exact h
      | enqueueDespawn f => exact List.mem_append_left _ h

theorem enqueued_mem_queue (e : Nat) (ops : List TickOp) :
    ∀ w : TickWorld, TickOp.enqueueDespawn e ∈ ops →
      e ∈ (runSystems w ops).queue := by
  induction ops with
  | nil => intro w h; cases h
  | cons op rest ih =>
      intro w h
      rcases List.mem_cons.mp h with h1 | h2
      · subst h1
        refine queue_mono_runSystems e rest _ ?_
        exact List.mem_append_right _ (List.mem_singleton_self e)
      · exact ih _ h2

theorem filter_fold_not_mem (e : Nat) (q : List Nat) :
    ∀ al : List Nat, e ∉ al →
      e ∉ q.foldl (fun al x => al.filter (fun a => a != x)) al := by
  induction q with
  | nil => intro al h; exact h
  | cons x rest ih =>
      intro al h
      refine ih _ ?_
      intro hmem
      exact h (List.mem_of_mem_filter hmem)

theorem queue_fold_removes (e : Nat) (q : List Nat) :
    ∀ al : List Nat, e ∈ q →
      e ∉ q.foldl (fun al x => al.filter (fun a => a != x)) al := by
  induction q with
  | nil => intro al h; cases h
  | cons x rest ih =>
      intro al hq
      rcases List.mem_cons.mp hq with h1 | h2
      · subst h1
        refine filter_fold_not_mem e rest _ ?_
        intro hmem
        have := List.of_mem_filter hmem
        simp at this
      · exact ih _ h2

theorem flush_removes_queued (e : Nat) (w : TickWorld) (hq : e ∈ w.queue) :
    e ∉ (flushDespawnQueue w).alive := by
  unfold flushDespawnQueue
  exact queue_fold_removes e w.queue w.alive hq

theorem dead_stays_dead (e : Nat) (ops : List TickOp)
    (hops : ∀ op ∈ ops, op ≠ TickOp.spawn e) :
    ∀ w : TickWorld, e ∉ w.alive → e ∉ (runSystems w ops).alive := by
  induction ops with
  | nil => intro w h; exact h
  | cons op rest ih =>
      intro w h
      refine ih (fun q hq => hops q (List.mem_cons_of_mem _ hq)) _ ?_
      cases op with
      | spawn f =>
          intro hmem
          rcases List.mem_append.mp hmem with h1 | h2
          · exact h h1
          · have hf : f = e := by
              simpa using List.mem_singleton.mp h2 |>.symm
            exact hops (TickOp.spawn f) (List.mem_cons_self _ _) (by rw [hf])
      | enqueueDespawn f => exact h

/-- Claim C5, confirmed.  An entity alive at the start of tick T and
enqueued for despawn by some system of tick T is still in the store after
every system of that tick has run; the `update` call then removes it and
leaves the queue empty, and during the following tick it appears in no
query (the fresh-entity discipline of `world.spawn` means no tick-T+1
effect respawns the same entity id). -/
theorem C5_despawn_deferred_to_tick_end (w : TickWorld) (ops : List TickOp)
    (e : Nat) (halive : e ∈ w.alive)
    (henq : TickOp.enqueueDespawn e ∈ ops) :
    e ∈ (runSystems w ops).alive ∧
    (updateTick w ops).queue = [] ∧
    e ∉ (updateTick w ops).alive ∧
    ∀ ops2 : List TickOp, (∀ op ∈ ops2, op ≠ TickOp.spawn e) →
      e ∉ (runSystems (updateTick w ops) ops2).alive := by
  refine ⟨alive_mono_runSystems e ops w halive, rfl, ?_, ?_⟩
  · exact flush_removes_queued e _ (enqueued_mem_queue e ops w henq)
  · intro ops2 hops2
    exact dead_stays_dead e ops2 hops2 _
      (flush_removes_queued e _ (enqueued_mem_queue e ops w henq))

/-- Claim C5, witness: entity 2, alive among three entities, is enqueued
mid-tick; it survives the systems phase, is gone after the flush, and
stays gone through a next tick that spawns a fresh entity. -/
theorem C5_despawn_deferred_to_tick_end_witness :
    2 ∈ (TickWorld.mk [1, 2, 3] []).alive ∧
    TickOp.enqueueDespawn 2 ∈ [TickOp.spawn 4, TickOp.enqueueDespawn 2] ∧
    2 ∈ (runSystems ⟨[1, 2, 3], []⟩ [TickOp.spawn 4, TickOp.enqueueDespawn 2]).alive ∧
    (updateTick ⟨[1, 2, 3], []⟩ [TickOp.spawn 4, TickOp.enqueueDespawn 2]).queue = [] ∧
    2 ∉ (updateTick ⟨[1, 2, 3], []⟩ [TickOp.spawn 4, TickOp.enqueueDespawn 2]).alive ∧
    2 ∉ (runSystems
      (updateTick ⟨[1, 2, 3], []⟩ [TickOp.spawn 4, TickOp.enqueueDespawn 2])
      [TickOp.spawn 7]).alive := by
  have h := C5_despawn_deferred_to_tick_end ⟨[1, 2, 3], []⟩
    [TickOp.spawn 4, TickOp.enqueueDespawn 2] 2 (by decide) (by decide)
  exact ⟨by decide, by decide, h.1, h.2.1, h.2.2.1, h.2.2.2 [TickOp.spawn 7] (by decide)⟩

/-! ## Lightmap build (src/main.rs lines 649-713)

`build_lightmap` clears the lights buffer to ambient RGB(70,70,70), then
for EVERY entity with a Light and a Pos it first calls
`build_shadow_mask` (line 664, unconditionally), then fills the per-light
scratch texture: cleared to black, the light sprite is copied additively
iff `radius > 0 && intensity > 0.` (line 678), then the shadow mask is
multiplied in, and the scratch is added (saturating, per SDL additive
blending) into the lights buffer.

Pixels are grayscale naturals clamped at 255.  The platform light sprite
(`light.png` with color/intensity modulation and destination rect) and the
rasterized shadow mask content are out-of-scope texture data, passed in as
the parameters `tex` and `maskOf`; the claims only need that an inactive
light skips the sprite copy and that `build_shadow_mask` runs per light,
both of which are structural here.  The pair component `.2` counts
`build_shadow_mask` invocations. -/

structure LightM where
  radius : Nat
  colorR : Nat
  colorG : Nat
  colorB : Nat
  intensity : ℚ
deriving DecidableEq, Repr

/-- The guard of the light sprite copy: `light.radius > 0 &&
light.intensity > 0.` (main.rs line 678). -/
def lightActive (l : LightM) : Bool :=
  decide (0 < l.radius) && decide (0 < l.intensity)

/-- SDL additive blending saturates at 255. -/
def satAdd (a b : Nat) : Nat := min (a + b) 255

/-- The per-light scratch texture at pixel `p`: black canvas, plus the
sprite if the light is active, multiplied by the shadow mask (0..255). -/
def perLightTex (tex maskOf : LightM → Pos → Int × Int → Nat) (l : LightM)
    (lp : Pos) (p : Int × Int) : Nat :=
  let base := if lightActive l then satAdd 0 (tex l lp p) else 0
  base * maskOf l lp p / 255

/-- Accumulating one light into the lights buffer. -/
def bufStep (tex maskOf : LightM → Pos → Int × Int → Nat)
    (buf : Int × Int → Nat) (lp : LightM × Pos) : Int × Int → Nat :=
  fun p => satAdd (buf p) (perLightTex tex maskOf lp.1 lp.2 p)

/-- `build_lightmap`: ambient-cleared buffer folded over all lights; the
second component counts the unconditional `build_shadow_mask` calls. -/
def buildLightmap (tex maskOf : LightM → Pos → Int × Int → Nat)
    (lights : List (LightM × Pos)) : (Int × Int → Nat) × Nat :=
  lights.foldl (fun acc lp => (bufStep tex maskOf acc.1 lp, acc.2 + 1))
    (fun _ => 70, 0)

theorem buildLightmap_foldl_split (tex maskOf : LightM → Pos → Int × Int → Nat) :
    ∀ (ls : List (LightM × Pos)) (acc : (Int × Int → Nat) × Nat),
      ls.foldl (fun acc lp => (bufStep tex maskOf acc.1 lp, acc.2 + 1)) acc =
        (ls.foldl (bufStep tex maskOf) acc.1, acc.2 + ls.length) := by
  intro ls
  induction ls with
  | nil => intro acc; simp
  | cons lp rest ih =>
      intro acc
      rw [List.foldl_cons, List.foldl_cons, ih]
      refine Prod.ext rfl ?_
      simp only [List.length_cons]
      omega

theorem bufStep_fold_le (tex maskOf : LightM → Pos → Int × Int → Nat) :
    ∀ (ls : List (LightM × Pos)) (buf0 : Int × Int → Nat),
      (∀ p, buf0 p ≤ 255) →
      ∀ p, (ls.foldl (bufStep tex maskOf) buf0) p ≤ 255 := by
  intro ls
  induction ls with
  | nil => intro buf0 h p; exact h p
  | cons lp rest ih =>
      intro buf0 _ p
      refine ih _ (fun q => ?_) p
      exact Nat.min_le_right _ _

theorem perLightTex_inactive (tex maskOf : LightM → Pos → Int × Int → Nat)
    (l : LightM) (lp : Pos) (p : Int × Int)
    (h : l.radius = 0 ∨ l.intensity = 0) :
    perLightTex tex maskOf l lp p = 0 := by
  unfold perLightTex lightActive
  have hb : (decide (0 < l.radius) && decide (0 < l.intensity)) = false := by
    rcases h with h | h <;> simp [h]
  rw [hb]
  simp

/-- Claim C9, counterexample.  A light with radius 0 DOES incur the
shadow-mask rebuild: `build_shadow_mask` is invoked once per light before
the `radius > 0 && intensity > 0` guard is ever consulted, so a frame with
one radius-0 light performs one rebuild where the claim requires zero. -/
theorem C9_counterexample :
    (LightM.mk 0 255 255 100 1).radius = 0 ∧
    (buildLightmap (fun _ _ _ => 200) (fun _ _ _ => 255)
      [(LightM.mk 0 255 255 100 1, ⟨3, 4⟩)]).2 = 1 :=
  ⟨rfl, rfl⟩

/-- Claim C9, amended.  A light with radius 0 or intensity 0 adds no
visible illumination (the composited buffer is pointwise identical to the
same frame without it), but the shadow-mask rebuild is still performed for
it: the rebuild count grows by exactly one. -/
theorem C9_inactive_light_dark_but_mask_rebuilt
    (tex maskOf : LightM → Pos → Int × Int → Nat)
    (ls1 ls2 : List (LightM × Pos)) (l : LightM) (lp : Pos)
    (h : l.radius = 0 ∨ l.intensity = 0) :
    (buildLightmap tex maskOf (ls1 ++ (l, lp) :: ls2)).1 =
      (buildLightmap tex maskOf (ls1 ++ ls2)).1 ∧
    (buildLightmap tex maskOf (ls1 ++ (l, lp) :: ls2)).2 =
      (buildLightmap tex maskOf (ls1 ++ ls2)).2 + 1 := by
  unfold buildLightmap
  rw [buildLightmap_foldl_split, buildLightmap_foldl_split]
  constructor
  · rw [List.foldl_append, List.foldl_append, List.foldl_cons]
    have hstep : bufStep tex maskOf
        (ls1.foldl (bufStep tex maskOf) (fun _ => 70)) (l, lp) =
        ls1.foldl (bufStep tex maskOf) (fun _ => 70) := by
      funext p
      unfold bufStep
      rw [perLightTex_inactive tex maskOf l lp p h]
      unfold satAdd
      rw [Nat.add_zero]
      exact Nat.min_eq_left
        (bufStep_fold_le tex maskOf ls1 _ (fun _ => by omega) p)
    rw [hstep]
  · simp only [List.length_append, List.length_cons]
    omega

/-- Claim C9, witness: the amended theorem at a radius-0 light alongside a
normal torch-like light, with constant texture parameters. -/
theorem C9_inactive_light_dark_but_mask_rebuilt_witness :
    ((LightM.mk 0 255 255 100 1).radius = 0 ∨
      (LightM.mk 0 255 255 100 1).intensity = 0) ∧
    (buildLightmap (fun _ _ _ => 200) (fun _ _ _ => 255)
        ([] ++ (LightM.mk 0 255 255 100 1, ⟨3, 4⟩) :: [(LightM.mk 120 255 255 0 1, ⟨5, 6⟩)])).1 =
      (buildLightmap (fun _ _ _ => 200) (fun _ _ _ => 255)
        ([] ++ [(LightM.mk 120 255 255 0 1, ⟨5, 6⟩)])).1 ∧
    (buildLightmap (fun _ _ _ => 200) (fun _ _ _ => 255)
        ([] ++ (LightM.mk 0 255 255 100 1, ⟨3, 4⟩) :: [(LightM.mk 120 255 255 0 1, ⟨5, 6⟩)])).2 =
      (buildLightmap (fun _ _ _ => 200) (fun _ _ _ => 255)
        ([] ++ [(LightM.mk 120 255 255 0 1, ⟨5, 6⟩)])).2 + 1 := by
  have h := C9_inactive_light_dark_but_mask_rebuilt
    (fun _ _ _ => 200) (fun _ _ _ => 255) []
    [(LightM.mk 120 255 255 0 1, ⟨5, 6⟩)] (LightM.mk 0 255 255 100 1) ⟨3, 4⟩
    (Or.inl rfl)
  exact ⟨Or.inl rfl, h.1, h.2⟩

/-! ## Entity archetypes and reachable world states (src/game.rs)

For claim C10 the store is modelled at the component-presence level: a
spawned record keeps the marker components and the collider group of the
spawn call that made it.  Components are attached only at spawn (the
repository has no add-component-after-spawn call); position writes and
collider mutations during `update`/`render` go through `&mut` borrows of
the existing component and so can replace a collider value inside the
group but never turn `nav: Some(..)` into `None`.  The update-phase store
effects are exactly: spawn_bullet (update_player), the particle spawn
(update_spawners), the chemlight entity spawn (Chemlight::on_use),
spawn_enemy (present in the source, currently uncalled), despawn (the
queue flush), position writes, and collider-field writes (fix_colliders,
detect_collisions). -/

structure SpawnRec where
  isWall : Bool := false
  isStatic : Bool := false
  isFloor : Bool := false
  isProp : Bool := false
  isPlayer : Bool := false
  isEnemy : Bool := false
  isProjectile : Bool := false
  isInteractable : Bool := false
  isEmitter : Bool := false
  hasLight : Bool := false
  cg : Option ColliderGroup := none
  pos : Pos := ⟨0, 0⟩
deriving DecidableEq, Repr

/-- Wall nav collider (src/game.rs lines 213-221). -/
def wallNav : Collider :=
  Collider.make (-16) (-14) 32 30 CH_NAV (CH_NAV ||| CH_HITBOX) false

/-- Player nav collider (line 124). -/
def playerNav : Collider := Collider.make (-13) 0 26 16 CH_NAV CH_NAV false

/-- Enemy nav collider (line 256). -/
def enemyNav : Collider := Collider.make (-10) 6 22 10 CH_NAV CH_NAV false

/-- Enemy hitbox collider with its despawn-enqueueing callback
(lines 257-272). -/
def enemyHitbox : Collider :=
  Collider.make (-16) (-16) 32 32 CH_HITBOX CH_HITBOX true

/-- Bullet nav collider with callback (lines 297-311). -/
def bulletNav : Collider :=
  Collider.make (-6) (-6) 12 12 CH_NONE (CH_HITBOX ||| CH_NAV) true

/-- Particle nav collider with callback (lines 521-532). -/
def particleNav : Collider :=
  Collider.make (-2) (-2) 4 4 CH_NONE (CH_NAV ||| CH_HITBOX) true

/-- `spawn_wall`: Static + Wall + Pos + sprite + ColliderGroup with a nav
collider and no hitbox. -/
def wallRec (p : Pos) : SpawnRec :=
  { isStatic := true, isWall := true, pos := p,
    cg := some ⟨some wallNav, none⟩ }

/-- `spawn_floor`: Floor + Pos + sprite, no collider group. -/
def floorRec (p : Pos) : SpawnRec := { isFloor := true, pos := p }

/-- `spawn_player`. -/
def playerRec (p : Pos) : SpawnRec :=
  { isPlayer := true, pos := p, cg := some ⟨some playerNav, none⟩,
    hasLight := true }

/-- `spawn_torch`. -/
def torchRec (p : Pos) : SpawnRec := { hasLight := true, pos := p }

/-- `spawn_particle_emitter`. -/
def emitterRec (p : Pos) : SpawnRec :=
  { isProp := true, isEmitter := true, hasLight := true, pos := p }

/-- `spawn_lever`. -/
def leverRec (p : Pos) : SpawnRec := { isInteractable := true, pos := p }

/-- `spawn_enemy`. -/
def enemyRec (p : Pos) : SpawnRec :=
  { isEnemy := true, pos := p, cg := some ⟨some enemyNav, some enemyHitbox⟩,
    hasLight := true }

/-- `spawn_bullet`. -/
def bulletRec (p : Pos) : SpawnRec :=
  { isProjectile := true, pos := p, cg := some ⟨some bulletNav, none⟩,
    hasLight := true }

/-- The particle entity spawned by `update_spawners`. -/
def particleRec (p : Pos) : SpawnRec :=
  { isProjectile := true, pos := p, cg := some ⟨some particleNav, none⟩,
    hasLight := true }

/-- The light entity spawned by `Chemlight::on_use`. -/
def chemlightRec (p : Pos) : SpawnRec := { hasLight := true, pos := p }

structure GWorld where
  entities : List (Nat × SpawnRec)
  nextId : Nat
deriving DecidableEq, Repr

/-- `world.spawn`: fresh id, record appended. -/
def GWorld.spawn (w : GWorld) (r : SpawnRec) : GWorld :=
  ⟨w.entities ++ [(w.nextId, r)], w.nextId + 1⟩

/-- `world.despawn`: the entity and all its components are removed. -/
def GWorld.despawn (w : GWorld) (e : Nat) : GWorld :=
  ⟨w.entities.filter (fun pr => pr.1 != e), w.nextId⟩

/-- Mutating the nav collider through `&mut`: replaces the collider value
when one is present, never changes presence. -/
def mutateNav (g : ColliderGroup) (c : Collider) : ColliderGroup :=
  match g.nav with
  | some _ => ⟨some c, g.hitbox⟩
  | none => g

/-- Mutating the hitbox collider through `&mut`. -/
def mutateHitbox (g : ColliderGroup) (c : Collider) : ColliderGroup :=
  match g.hitbox with
  | some _ => ⟨g.nav, some c⟩
  | none => g

/-- One store effect reachable during `update`/`render`. -/
inductive UpdOp
  | spawnBulletOp (p : Pos)
  | spawnParticleOp (p : Pos)
  | spawnChemlightOp (p : Pos)
  | spawnEnemyOp (p : Pos)
  | despawnOp (e : Nat)
  | setPosOp (e : Nat) (p : Pos)
  | setNavOp (e : Nat) (c : Collider)
  | setHitboxOp (e : Nat) (c : Collider)
deriving DecidableEq, Repr

def applyUpdOp (w : GWorld) : UpdOp → GWorld
  | .spawnBulletOp p => w.spawn (bulletRec p)
  | .spawnParticleOp p => w.spawn (particleRec p)
  | .spawnChemlightOp p => w.spawn (chemlightRec p)
  | .spawnEnemyOp p => w.spawn (enemyRec p)
  | .despawnOp e => w.despawn e
  | .setPosOp e p =>
      ⟨w.entities.map (fun pr =>
        if pr.1 = e then (pr.1, { pr.2 with pos := p }) else pr), w.nextId⟩
  | .setNavOp e c =>
      ⟨w.entities.map (fun pr =>
        if pr.1 = e then
          (pr.1, { pr.2 with cg := pr.2.cg.map (fun g => mutateNav g c) })
        else pr), w.nextId⟩
  | .setHitboxOp e c =>
      ⟨w.entities.map (fun pr =>
        if pr.1 = e then
          (pr.1, { pr.2 with cg := pr.2.cg.map (fun g => mutateHitbox g c) })
        else pr), w.nextId⟩

def applyUpdOps (w : GWorld) (ops : List UpdOp) : GWorld :=
  ops.foldl applyUpdOp w

/-- `tile_to_pos`. -/
def tileToPos (x y : Nat) : Pos := ⟨x * 32 + 16, y * 32 + 16⟩

/-- `game::init`: the 64x64 floor, the three wall rows with their gaps,
the three extra walls, two torches, the particle emitter, the lever and
the player. -/
def initWorld : GWorld :=
  let w : GWorld := ⟨[], 0⟩
  let w := (List.range 64).foldl (fun w x =>
    (List.range 64).foldl (fun w y => w.spawn (floorRec (tileToPos x y))) w) w
  let w := (List.range 64).foldl (fun w x =>
    let w2 := w.spawn (wallRec (tileToPos x 1))
    if x ≠ 7 ∧ x ≠ 8 then w2.spawn (wallRec (tileToPos x 8)) else w2) w
  let w := (List.range 64).foldl (fun w x =>
    if x ≠ 12 then w.spawn (wallRec (tileToPos x 18)) else w) w
  let w := w.spawn (wallRec (tileToPos 16 15))
  let w := w.spawn (wallRec (tileToPos 16 16))
  let w := w.spawn (wallRec (tileToPos 16 17))
  let w := w.spawn (torchRec ⟨350, 570⟩)
  let w := w.spawn (torchRec ⟨600, 200⟩)
  let w := w.spawn (emitterRec ⟨540, 640⟩)
  let w := w.spawn (leverRec ⟨200, 200⟩)
  w.spawn (playerRec ⟨400, 400⟩)

/-- The safety condition of the per-wall occluder query of
`build_shadow_mask` (main.rs lines 739-745): if the record carries `Wall`
then it has a collider group whose nav member is present, so
`cg.nav.unwrap()` cannot panic. -/
def wallOk (r : SpawnRec) : Bool :=
  !r.isWall || (match r.cg with
    | some g => g.nav.isSome
    | none => false)

def wallInvB (w : GWorld) : Bool := w.entities.all (fun pr => wallOk pr.2)

theorem wallInvB_spawn (w : GWorld) (r : SpawnRec)
    (hw : wallInvB w = true) (hr : wallOk r = true) :
    wallInvB (w.spawn r) = true := by
  unfold wallInvB GWorld.spawn at *
  rw [List.all_append]
  simp [hw, hr]

theorem wallInvB_despawn (w : GWorld) (e : Nat)
    (hw : wallInvB w = true) : wallInvB (w.despawn e) = true := by
  unfold wallInvB GWorld.despawn at *
  rw [List.all_eq_true] at *
  intro pr hpr
  exact hw pr (List.mem_of_mem_filter hpr)

theorem wallInvB_mapUpdate (w : GWorld) (e : Nat) (f : SpawnRec → SpawnRec)
    (n : Nat) (hf : ∀ r, wallOk r = true → wallOk (f r) = true)
    (hw : wallInvB w = true) :
    wallInvB ⟨w.entities.map (fun pr =>
      if pr.1 = e then (pr.1, f pr.2) else pr), n⟩ = true := by
  unfold wallInvB at *
  rw [List.all_eq_true] at *
  intro pr hpr
  rcases List.mem_map.mp hpr with ⟨q, hq, hqe⟩
  by_cases hcase : q.1 = e
  · rw [if_pos hcase] at hqe
    rw [← hqe]
    exact hf q.2 (hw q hq)
  · rw [if_neg hcase] at hqe
    rw [← hqe]
    exact hw q hq

theorem wallOk_setPos (p : Pos) (r : SpawnRec) (h : wallOk r = true) :
    wallOk { r with pos := p } = true := h

theorem wallOk_mutNav (c : Collider) (r : SpawnRec) (h : wallOk r = true) :
    wallOk { r with cg := r.cg.map (fun g => mutateNav g c) } = true := by
  unfold wallOk at *
  cases hcg : r.cg with
  | none => rw [hcg] at h; simpa [hcg] using h
  | some g =>
      rw [hcg] at h
      cases hnav : g.nav with
      | none => simp_all [mutateNav, hnav]
      | some c0 => simp_all [mutateNav, hnav]

theorem wallOk_mutHitbox (c : Collider) (r : SpawnRec) (h : wallOk r = true) :
    wallOk { r with cg := r.cg.map (fun g => mutateHitbox g c) } = true := by
  unfold wallOk at *
  cases hcg : r.cg with
  | none => rw [hcg] at h; simpa [hcg] using h
  | some g =>
      rw [hcg] at h
      cases hhb : g.hitbox with
      | none => simp_all [mutateHitbox, hhb]
      | some c0 => simp_all [mutateHitbox, hhb]

theorem wallInvB_applyUpdOp (w : GWorld) (op : UpdOp)
    (hw : wallInvB w = true) : wallInvB (applyUpdOp w op) = true := by
  cases op with
  | spawnBulletOp p => exact wallInvB_spawn w _ hw rfl
  | spawnParticleOp p => exact wallInvB_spawn w _ hw rfl
  | spawnChemlightOp p => exact wallInvB_spawn w _ hw rfl
  | spawnEnemyOp p => exact wallInvB_spawn w _ hw rfl
  | despawnOp e => exact wallInvB_despawn w e hw
  | setPosOp e p => exact wallInvB_mapUpdate w e _ _ (wallOk_setPos p) hw
  | setNavOp e c => exact wallInvB_mapUpdate w e _ _ (wallOk_mutNav c) hw
  | setHitboxOp e c => exact wallInvB_mapUpdate w e _ _ (wallOk_mutHitbox c) hw

theorem wallInvB_foldl {α : Type} (f : GWorld → α → GWorld)
    (hf : ∀ w a, wallInvB w = true → wallInvB (f w a) = true) :
    ∀ (l : List α) (w : GWorld), wallInvB w = true →
      wallInvB (l.foldl f w) = true := by
  intro l
  induction l with
  | nil => intro w hw; exact hw
  | cons a rest ih => intro w hw; exact ih _ (hf w a hw)

theorem wallInvB_init : wallInvB initWorld = true := by
  unfold initWorld
  refine wallInvB_spawn _ _ ?_ rfl
  refine wallInvB_spawn _ _ ?_ rfl
  refine wallInvB_spawn _ _ ?_ rfl
  refine wallInvB_spawn _ _ ?_ rfl
  refine wallInvB_spawn _ _ ?_ rfl
  refine wallInvB_spawn _ _ ?_ rfl
  refine wallInvB_spawn _ _ ?_ rfl
  refine wallInvB_spawn _ _ ?_ rfl
  refine wallInvB_foldl _ ?_ _ _ ?_
  · intro w x hw
    split_ifs with hx
    · exact wallInvB_spawn w _ hw rfl
    · exact hw
  refine wallInvB_foldl _ ?_ _ _ ?_
  · intro w x hw
    split_ifs with hx
    · exact wallInvB_spawn _ _ (wallInvB_spawn w _ hw rfl) rfl
    · exact wallInvB_spawn w _ hw rfl
  refine wallInvB_foldl _ ?_ _ _ ?_
  · intro w x hw
    exact wallInvB_foldl (fun w2 y => w2.spawn (floorRec (tileToPos x y)))
      (fun w2 y hw2 => wallInvB_spawn w2 (floorRec (tileToPos x y)) hw2 rfl)
      (List.range 64) w hw
  rfl

/-- Claim C10, confirmed.  In every world state reachable from `init` by
any sequence of update-phase store effects, every entity carrying the Wall
component has a collider group whose nav member is present — walls are
spawned only by `spawn_wall`, which always attaches one, components are
never detached, and collider mutation preserves presence — so the
`cg.nav.unwrap()` inside the per-wall occluder query of
`build_shadow_mask` cannot panic. -/
theorem C10_wall_nav_unwrap_safe (ops : List UpdOp) :
    wallInvB (applyUpdOps initWorld ops) = true := by
  unfold applyUpdOps
  exact wallInvB_foldl applyUpdOp wallInvB_applyUpdOp ops initWorld wallInvB_init

end Game
